import Mathlib

/-!
# Verification of the ESP32 bot networking core

Shallow embedding of the node networking core of the `mcp` repository
(`src/esp32_examples/…`): the ESP-NOW peer registry and link-layer frame
construction, server discovery with static fallback, status reporting,
receive dispatch, emergency relay and the firmware-update decision.

Each definition is translated from a named C++ function of the repository;
the theorems at the end settle the spec claims against these definitions.
-/

namespace Mcp

/-- A 6-byte link-layer (MAC) address, as a list of byte values. -/
abbrev Mac := List Nat

/-! ## ESP-NOW peer-registry primitives

`esp_now_is_peer_exist` and `esp_now_add_peer` are the ESP-IDF registry
primitives the repository calls.  The registry is the ordered list of
registered addresses; `esp_now_add_peer` rejects an address that is already
registered (`ESP_ERR_ESPNOW_EXIST`) and may otherwise be rejected by the
radio, which we model with the boolean oracle `accept`.  It returns the new
registry and whether the call returned `ESP_OK`. -/

def esp_now_is_peer_exist (registry : List Mac) (m : Mac) : Bool :=
  registry.contains m

def esp_now_add_peer (accept : Bool) (registry : List Mac) (m : Mac) :
    List Mac × Bool :=
  if registry.contains m then (registry, false)
  else if accept then (registry ++ [m], true)
  else (registry, false)

/-- `addESPNowPeer` of `bots/speedie_bot/src/main.cpp` (lines 660-690):
if the peer already exists it logs and returns (no-op); otherwise it calls
`esp_now_add_peer` at the current WiFi channel (`accept1` models the radio's
answer) and, if that fails, retries once with channel 0 (`accept2`).
Returns the resulting registry. -/
def speedie_addESPNowPeer (accept1 accept2 : Bool) (registry : List Mac)
    (m : Mac) : List Mac :=
  if esp_now_is_peer_exist registry m then registry
  else
    let r1 := esp_now_add_peer accept1 registry m
    if r1.2 then r1.1
    else (esp_now_add_peer accept2 r1.1 m).1

/-- `addESPNowPeer` of `generic_bot_template/src/main.cpp` (lines 449-462):
no existence pre-check; a single `esp_now_add_peer` call at channel 0, its
failure merely logged. -/
def generic_addESPNowPeer (accept : Bool) (registry : List Mac) (m : Mac) :
    List Mac :=
  (esp_now_add_peer accept registry m).1

/-! ## Wire-frame construction

The `esp_now_message_t` structs.  In the speedie_bot / generic_bot_template
layout the fields are `sender_id[24]`, `message_type[12]`, `payload[128]`,
`uint32_t timestamp`; in bot_wifi_client they are `sender_id[32]`,
`message_type[16]`, `payload[200]`, `uint32_t timestamp`.  In both layouts
every field offset (0, 24, 36, 164 resp. 0, 32, 48, 248) is 4-byte aligned,
so `sizeof` is the plain sum of the field sizes, with no padding. -/

/-- `sizeof(esp_now_message_t)` for the speedie_bot / generic_bot_template
layout: 24 + 12 + 128 + 4. -/
def speedie_messageSize : Nat := 24 + 12 + 128 + 4

/-- `sizeof(esp_now_message_t)` for the bot_wifi_client layout
(lines 60-65): 32 + 16 + 200 + 4. -/
def botWifiClient_messageSize : Nat := 32 + 16 + 200 + 4

/-- `strncpy(dst, src, size-1)` into a buffer of `size` bytes that was
zero-filled by `memset` beforehand: the first `min |src| (size-1)` bytes
come from the source string, every remaining byte of the buffer is zero. -/
def strncpyZ (size : Nat) (src : List Nat) : List Nat :=
  src.take (min src.length (size - 1)) ++
    List.replicate (size - min src.length (size - 1)) 0

/-- `strncpy(dst, src, size-1)` into an UNinitialized buffer of `size`
bytes (no `memset`, as in bot_wifi_client's `sendESPNowMessage`):
`strncpy` itself zero-pads up to `size-1` bytes when the source is shorter,
but the final byte of the buffer is never written and keeps its stack value
`junkLast`. -/
def strncpyPad (size : Nat) (src : List Nat) (junkLast : Nat) : List Nat :=
  src.take (min src.length (size - 1)) ++
    List.replicate (size - 1 - min src.length (size - 1)) 0 ++ [junkLast]

/-- A 32-bit timestamp laid out as its four little-endian bytes. -/
def u32le (n : Nat) : List Nat :=
  [n % 256, n / 256 % 256, n / 65536 % 256, n / 16777216 % 256]

/-- The frame built by `sendESPNowMessage` of
`bots/speedie_bot/src/main.cpp` (lines 522-540): the struct is zero-filled
with `memset`, then each string field is copied with
`strncpy(field, src, sizeof(field) - 1)` and the timestamp is assigned. -/
structure SpeedieFrame where
  sender_id : List Nat
  message_type : List Nat
  payload : List Nat
  timestamp : List Nat

def mkSpeedieFrame (botID msgType payload : List Nat) (ts : Nat) :
    SpeedieFrame :=
  { sender_id := strncpyZ 24 botID
    message_type := strncpyZ 12 msgType
    payload := strncpyZ 128 payload
    timestamp := u32le ts }

/-- The byte image of the struct passed to `esp_now_send`. -/
def SpeedieFrame.encode (f : SpeedieFrame) : List Nat :=
  f.sender_id ++ f.message_type ++ f.payload ++ f.timestamp

/-- The byte image of the frame built by `sendESPNowMessage` of
`examples/bot_wifi_client/src/main.cpp` (lines 418-432): no `memset`, three
`strncpy(field, src, sizeof(field) - 1)` calls (each leaving the last byte
of its field uninitialized, modeled by `j1 j2 j3`), then the timestamp. -/
def mkBotWifiFrame (botID msgType payload : List Nat) (ts : Nat)
    (j1 j2 j3 : Nat) : List Nat :=
  strncpyPad 32 botID j1 ++ strncpyPad 16 msgType j2 ++
    strncpyPad 200 payload j3 ++ u32le ts

/-! ## speedie_bot send path (`sendESPNowMessage`, lines 505-566) -/

/-- Result of a `sendESPNowMessage` call: the registry afterwards, whether
`addESPNowPeer` was invoked, and the frame handed to `esp_now_send`
(`none` when the function returned before building a frame). -/
structure EspNowSendResult where
  registry : List Mac
  registrationInvoked : Bool
  sentFrame : Option SpeedieFrame

/-- `sendESPNowMessage` of speedie_bot: if the peer is not registered it
first calls `addESPNowPeer`; if the peer is still absent it logs
"cannot send message" and returns without building or sending a frame;
otherwise it builds the frame and calls `esp_now_send`. -/
def speedie_sendESPNowMessage (accept1 accept2 : Bool) (registry : List Mac)
    (peer : Mac) (botID msgType payload : List Nat) (ts : Nat) :
    EspNowSendResult :=
  if esp_now_is_peer_exist registry peer then
    { registry := registry, registrationInvoked := false,
      sentFrame := some (mkSpeedieFrame botID msgType payload ts) }
  else
    let r2 := speedie_addESPNowPeer accept1 accept2 registry peer
    if esp_now_is_peer_exist r2 peer then
      { registry := r2, registrationInvoked := true,
        sentFrame := some (mkSpeedieFrame botID msgType payload ts) }
    else
      { registry := r2, registrationInvoked := true, sentFrame := none }

/-! ## Server discovery (`discoverMCPServer`)

The held endpoint is the pair of globals `mcpServerIP` (a string, `""` when
unset) and `mcpServerPort`.  The mDNS environment supplies whether
`MDNS.begin` succeeded and the result list of
`MDNS.queryService("mcp-server", "tcp")` (each entry being
`(MDNS.IP(i).toString(), MDNS.port(i))`). -/

structure ServerState where
  ip : String
  port : Nat
deriving DecidableEq, Repr

structure MdnsEnv where
  beginOk : Bool
  results : List (String × Nat)

/-- `discoverMCPServer` of `bots/speedie_bot/src/main.cpp` (lines 260-290):
if `MDNS.begin` fails, return `false`; if the query yields zero results and
`strlen(MCP_SERVER_IP_FALLBACK) > 0`, set the endpoint to the fallback IP
with the default port 8081 and return `true`; with zero results and no
fallback, return `false`; otherwise take the first query result. -/
def speedie_discoverMCPServer (env : MdnsEnv) (fallbackIP : String)
    (st : ServerState) : ServerState × Bool :=
  if !env.beginOk then (st, false)
  else
    match env.results with
    | [] =>
      if 0 < fallbackIP.length then
        ({ ip := fallbackIP, port := 8081 }, true)
      else (st, false)
    | (ip, p) :: _ => ({ ip := ip, port := p }, true)

/-- `discoverMCPServer` of `examples/bot_wifi_client/src/main.cpp`
(lines 199-229): identical control flow; its default fallback port is
8080. -/
def botWifi_discoverMCPServer (env : MdnsEnv) (fallbackIP : String)
    (st : ServerState) : ServerState × Bool :=
  if !env.beginOk then (st, false)
  else
    match env.results with
    | [] =>
      if 0 < fallbackIP.length then
        ({ ip := fallbackIP, port := 8080 }, true)
      else (st, false)
    | (ip, p) :: _ => ({ ip := ip, port := p }, true)

/-! ## Status reporting (`sendStatusToMCP`) -/

/-- Result of a `sendStatusToMCP` call: the endpoint state afterwards,
whether `discoverMCPServer` was invoked, and whether an HTTP status POST
was issued. -/
structure StatusReportResult where
  state : ServerState
  discoveryInvoked : Bool
  sentStatus : Bool
deriving Repr

/-- `sendStatusToMCP` of `bots/speedie_bot/src/main.cpp` (lines 356-409):
when WiFi is down or the endpoint is unset it first retries discovery if
the endpoint is unset, then logs and returns without sending; otherwise it
serializes the snapshot and POSTs it to the status path. -/
def speedie_sendStatusToMCP (wifiConnected : Bool) (env : MdnsEnv)
    (fallbackIP : String) (st : ServerState) : StatusReportResult :=
  if !wifiConnected || st.ip = "" then
    if st.ip = "" then
      { state := (speedie_discoverMCPServer env fallbackIP st).1,
        discoveryInvoked := true, sentStatus := false }
    else
      { state := st, discoveryInvoked := false, sentStatus := false }
  else
    { state := st, discoveryInvoked := false, sentStatus := true }

/-- `sendStatusToMCP` of `generic_bot_template/src/main.cpp`
(lines 407-447): when WiFi is down or the endpoint is unset it returns
immediately — it never invokes discovery itself. -/
def generic_sendStatusToMCP (wifiConnected : Bool) (st : ServerState) :
    StatusReportResult :=
  if !wifiConnected || st.ip = "" then
    { state := st, discoveryInvoked := false, sentStatus := false }
  else
    { state := st, discoveryInvoked := false, sentStatus := true }

/-! ## Receive dispatch (`onESPNowReceive`) -/

/-- The `respondToPeerMessage` invocations performed by `onESPNowReceive`
of `generic_bot_template/src/main.cpp` (lines 526-553) and of
`bots/speedie_bot/src/main.cpp` (lines 443-482) — both dispatch on the
frame's `message_type` identically: `"heartbeat"` answers the sender with
one `"heartbeat_ack"`, `"status"` with one `"status_ack"`, a type ending in
`"_ack"` is only logged, and any other type is logged as unknown; no branch
fails.  Returns the list of `(destination, responseType)` responses. -/
def onESPNowReceive_dispatch (mac : Mac) (message_type : String) :
    List (Mac × String) :=
  if message_type = "heartbeat" then [(mac, "heartbeat_ack")]
  else if message_type = "status" then [(mac, "status_ack")]
  else if message_type.endsWith "_ack" then []
  else []

/-! ## Emergency relay (`esp_now_example`) -/

/-- The `esp_now_message_t` of `examples/esp_now_example/src/main.cpp`:
the fields relevant to relaying.  `hop_count` is a `uint8_t`. -/
structure ExMessage where
  sender_id : String
  message_type : String
  payload : String
  timestamp : Nat
  hop_count : Nat
deriving DecidableEq, Repr

/-- `broadcastMessage` (lines 191-205): iterates over the ESP-NOW peer
registry and sends the frame to every registered peer.  Returns the list
of `(peer, message)` transmissions. -/
def broadcastMessage (registry : List Mac) (m : ExMessage) :
    List (Mac × ExMessage) :=
  registry.map (fun p => (p, m))

/-- `handleEmergency` (lines 305-313): if `hop_count < 3`, increment the
hop count (uint8 arithmetic) and re-broadcast the message to every
registered peer; otherwise do nothing. -/
def handleEmergency (registry : List Mac) (m : ExMessage) :
    List (Mac × ExMessage) :=
  if m.hop_count < 3 then
    broadcastMessage registry { m with hop_count := (m.hop_count + 1) % 256 }
  else []

/-! ## Firmware-update decision (`checkForFirmwareUpdate`) -/

lemma strncpyZ_length (size : Nat) (src : List Nat) :
    (strncpyZ size src).length = size := by
  simp only [strncpyZ, List.length_append, List.length_take,
    List.length_replicate]
  omega

lemma strncpyPad_length (size : Nat) (src : List Nat) (j : Nat)
    (h : 0 < size) : (strncpyPad size src j).length = size := by
  simp only [strncpyPad, List.length_append, List.length_take,
    List.length_replicate, List.length_singleton]
  omega

lemma u32le_length (n : Nat) : (u32le n).length = 4 := rfl

lemma getD_replicate_zero (n i : Nat) (h : i < n) :
    (List.replicate n (0 : Nat)).getD i 7 = 0 := by
  rw [List.getD_eq_getElem _ _ (by simpa using h)]
  exact List.getElem_replicate 0 (by simpa using h)

lemma strncpyZ_getD_zero (size : Nat) (src : List Nat) (i : Nat)
    (h1 : min src.length (size - 1) ≤ i) (h2 : i < size) :
    (strncpyZ size src).getD i 7 = 0 := by
  unfold strncpyZ
  have hlen : (src.take (min src.length (size - 1))).length =
      min src.length (size - 1) := by
    simp [List.length_take]
  rw [List.getD_append_right _ _ _ _ (by rw [hlen]; exact h1), hlen]
  exact getD_replicate_zero _ _ (by omega)

/-! ## Claim theorems -/

/-- C1: the claim states that for every payload input to
`sendESPNowMessage` the encoded wire frame is at most 250 bytes, with
payloads longer than 127 bytes silently truncated.  This holds for the
speedie_bot / generic_bot_template layout (168 bytes), but the
bot_wifi_client `esp_now_message_t` cited by the claim occupies 252 bytes
— over the 250-byte ESP-NOW MTU for every payload input, so every
`esp_now_send` of that struct is rejected by the radio
(`ESP_ERR_ESPNOW_ARG`).  The sibling sources document the 250-byte limit
(speedie_bot checks `sizeof(esp_now_message_t) > 250` at startup and its
field comments read "Reduced from 200 to 128"), so the oversized
bot_wifi_client layout is a code bug. -/
theorem frame_size_c1 :
    botWifiClient_messageSize = 252 ∧
    250 < botWifiClient_messageSize ∧
    speedie_messageSize = 168 ∧
    speedie_messageSize ≤ 250 ∧
    (∀ botID msgType payload ts j1 j2 j3,
      (mkBotWifiFrame botID msgType payload ts j1 j2 j3).length =
        botWifiClient_messageSize) ∧
    (∀ botID msgType payload ts,
      (mkSpeedieFrame botID msgType payload ts).encode.length =
        speedie_messageSize) := by
  refine ⟨rfl, by norm_num [botWifiClient_messageSize], rfl,
    by norm_num [speedie_messageSize], ?_, ?_⟩
  · intro botID msgType payload ts j1 j2 j3
    simp [mkBotWifiFrame, strncpyPad_length, u32le_length,
      botWifiClient_messageSize]
  · intro botID msgType payload ts
    simp [mkSpeedieFrame, SpeedieFrame.encode, strncpyZ_length, u32le_length,
      speedie_messageSize]

/-- C9: the frame built by speedie_bot's `sendESPNowMessage` is fully
initialized: each field buffer has its fixed size, `sender_id`,
`message_type` and `payload` end in a NUL byte within their buffers, and
every byte of a string field beyond the copied source bytes is zero
(the struct was `memset` to zero and each `strncpy` copies at most
`sizeof(field) - 1` bytes). -/
theorem speedie_frame_zero_initialized_c9 (botID msgType payload : List Nat)
    (ts : Nat) :
    (mkSpeedieFrame botID msgType payload ts).sender_id.length = 24 ∧
    (mkSpeedieFrame botID msgType payload ts).message_type.length = 12 ∧
    (mkSpeedieFrame botID msgType payload ts).payload.length = 128 ∧
    (mkSpeedieFrame botID msgType payload ts).timestamp.length = 4 ∧
    (mkSpeedieFrame botID msgType payload ts).sender_id.getD 23 7 = 0 ∧
    (mkSpeedieFrame botID msgType payload ts).message_type.getD 11 7 = 0 ∧
    (mkSpeedieFrame botID msgType payload ts).payload.getD 127 7 = 0 ∧
    (∀ i, min botID.length 23 ≤ i → i < 24 →
      (mkSpeedieFrame botID msgType payload ts).sender_id.getD i 7 = 0) ∧
    (∀ i, min msgType.length 11 ≤ i → i < 12 →
      (mkSpeedieFrame botID msgType payload ts).message_type.getD i 7 = 0) ∧
    (∀ i, min payload.length 127 ≤ i → i < 128 →
      (mkSpeedieFrame botID msgType payload ts).payload.getD i 7 = 0) := by
  refine ⟨strncpyZ_length _ _, strncpyZ_length _ _, strncpyZ_length _ _,
    u32le_length _, ?_, ?_, ?_, ?_, ?_, ?_⟩
  · exact strncpyZ_getD_zero 24 botID 23 (by omega) (by omega)
  · exact strncpyZ_getD_zero 12 msgType 11 (by omega) (by omega)
  · exact strncpyZ_getD_zero 128 payload 127 (by omega) (by omega)
  · intro i h1 h2; exact strncpyZ_getD_zero 24 botID i (by omega) h2
  · intro i h1 h2; exact strncpyZ_getD_zero 12 msgType i (by omega) h2
  · intro i h1 h2; exact strncpyZ_getD_zero 128 payload i (by omega) h2

/-- Witness for C9 at a concrete frame. -/
theorem speedie_frame_zero_initialized_c9_witness :
    (mkSpeedieFrame [83, 112] [104, 98] [120] 5).sender_id.getD 23 7 = 0 ∧
    (mkSpeedieFrame [83, 112] [104, 98] [120] 5).payload.getD 9 7 = 0 := by
  have h := speedie_frame_zero_initialized_c9 [83, 112] [104, 98] [120] 5
  exact ⟨h.2.2.2.2.1, h.2.2.2.2.2.2.2.2.2 9 (by simp) (by omega)⟩

/-- C2: `handleEmergency` relays a received emergency frame to every
registered peer with `hop_count` incremented by one exactly when the
received `hop_count` is strictly below 3; with `hop_count ≥ 3` nothing is
sent.  A frame received with `hop_count = 2` is re-broadcast carrying
`hop_count = 3`, and every subsequent receiver of that copy drops it. -/
theorem emergency_relay_hop_limit_c2 (registry : List Mac) (m : ExMessage)
    (hm : m.hop_count < 256) :
    (m.hop_count < 3 →
      handleEmergency registry m =
        registry.map (fun p => (p, { m with hop_count := m.hop_count + 1 }))) ∧
    (3 ≤ m.hop_count → handleEmergency registry m = []) ∧
    (m.hop_count = 2 → ∀ p m2, (p, m2) ∈ handleEmergency registry m →
      m2.hop_count = 3 ∧ ∀ registry2, handleEmergency registry2 m2 = []) := by
  refine ⟨?_, ?_, ?_⟩
  · intro h
    simp only [handleEmergency, if_pos h, broadcastMessage,
      Nat.mod_eq_of_lt (by omega : m.hop_count + 1 < 256)]
  · intro h
    simp only [handleEmergency, if_neg (by omega : ¬ m.hop_count < 3)]
  · intro h p m2 hmem
    simp only [handleEmergency, if_pos (by omega : m.hop_count < 3),
      broadcastMessage, List.mem_map] at hmem
    obtain ⟨q, _, hq⟩ := hmem
    have hm2 : m2 = { m with hop_count := (m.hop_count + 1) % 256 } :=
      ((Prod.mk.injEq _ _ _ _).mp hq).2.symm
    have hcount : m2.hop_count = 3 := by
      rw [hm2]; simp [h]
    refine ⟨hcount, fun registry2 => ?_⟩
    simp only [handleEmergency, hcount,
      if_neg (by omega : ¬ (3 : Nat) < 3)]

/-- Witness for C2: a concrete frame with `hop_count = 2` relayed by a
single-peer node carries `hop_count = 3` and is then dropped. -/
theorem emergency_relay_hop_limit_c2_witness :
    handleEmergency [[1, 2, 3, 4, 5, 6]]
        { sender_id := "A", message_type := "emergency", payload := "x",
          timestamp := 0, hop_count := 2 } =
      [([1, 2, 3, 4, 5, 6],
        { sender_id := "A", message_type := "emergency", payload := "x",
          timestamp := 0, hop_count := 3 })] ∧
    handleEmergency [[1, 2, 3, 4, 5, 6]]
        { sender_id := "A", message_type := "emergency", payload := "x",
          timestamp := 0, hop_count := 3 } = [] := by
  constructor
  · have h := (emergency_relay_hop_limit_c2 [[1, 2, 3, 4, 5, 6]]
      { sender_id := "A", message_type := "emergency", payload := "x",
        timestamp := 0, hop_count := 2 } (by decide)).1 (by decide)
    simpa using h
  · exact (emergency_relay_hop_limit_c2 [[1, 2, 3, 4, 5, 6]]
      { sender_id := "A", message_type := "emergency", payload := "x",
        timestamp := 0, hop_count := 3 } (by decide)).2.1 (by decide)

/-- C3: peer registration is idempotent.  For speedie_bot's
`addESPNowPeer`, registering an already-known address is a no-op (the
function returns after the existence check); for both speedie_bot's and
generic_bot_template's `addESPNowPeer`, registering the same address twice
is the same as registering it once, and never produces a second registry
entry. -/
theorem register_peer_idempotent_c3 (a1 a2 b : Bool) (registry : List Mac)
    (m : Mac) (hone : registry.count m ≤ 1) :
    (registry.contains m = true →
      speedie_addESPNowPeer a1 a2 registry m = registry) ∧
    speedie_addESPNowPeer a1 a2 (speedie_addESPNowPeer a1 a2 registry m) m =
      speedie_addESPNowPeer a1 a2 registry m ∧
    generic_addESPNowPeer b (generic_addESPNowPeer b registry m) m =
      generic_addESPNowPeer b registry m ∧
    (speedie_addESPNowPeer a1 a2 registry m).count m ≤ 1 ∧
    (generic_addESPNowPeer b registry m).count m ≤ 1 := by
  by_cases hc : m ∈ registry
  · have hnoop : speedie_addESPNowPeer a1 a2 registry m = registry := by
      simp [speedie_addESPNowPeer, esp_now_is_peer_exist, hc]
    have hgen : generic_addESPNowPeer b registry m = registry := by
      simp [generic_addESPNowPeer, esp_now_add_peer, hc]
    refine ⟨fun _ => hnoop, ?_, ?_, ?_, ?_⟩
    · rw [hnoop, hnoop]
    · rw [hgen, hgen]
    · rw [hnoop]; exact hone
    · rw [hgen]; exact hone
  · have hcount0 : registry.count m = 0 := List.count_eq_zero.mpr hc
    have hmm : m ∈ registry ++ [m] := by simp
    refine ⟨fun hct => absurd (by simpa using hct) hc, ?_, ?_, ?_, ?_⟩
    · cases a1 <;> cases a2 <;>
        simp [speedie_addESPNowPeer, esp_now_is_peer_exist,
          esp_now_add_peer, hc, hmm]
    · cases b <;>
        simp [generic_addESPNowPeer, esp_now_add_peer, hc, hmm]
    · cases a1 <;> cases a2 <;>
        simp [speedie_addESPNowPeer, esp_now_is_peer_exist,
          esp_now_add_peer, hc, List.count_append, hcount0]
    · cases b <;>
        simp [generic_addESPNowPeer, esp_now_add_peer, hc,
          List.count_append, hcount0]

/-- Witness for C3: registering a concrete already-known address is a
no-op, and a duplicate registration never yields two entries. -/
theorem register_peer_idempotent_c3_witness :
    speedie_addESPNowPeer true true [[1, 2, 3, 4, 5, 6]] [1, 2, 3, 4, 5, 6] =
      [[1, 2, 3, 4, 5, 6]] ∧
    (speedie_addESPNowPeer true true [] [1, 2, 3, 4, 5, 6]).count
      [1, 2, 3, 4, 5, 6] ≤ 1 := by
  constructor
  · exact (register_peer_idempotent_c3 true true true [[1, 2, 3, 4, 5, 6]]
      [1, 2, 3, 4, 5, 6] (by simp)).1 (by simp)
  · exact (register_peer_idempotent_c3 true true true [] [1, 2, 3, 4, 5, 6]
      (by simp)).2.2.2.1

/-- C4: when name resolution returns zero results, speedie_bot's
`discoverMCPServer` installs the configured fallback host with the default
port 8081 (the fallback branch) and succeeds; with no fallback configured
it fails and leaves the endpoint untouched, so an unset endpoint stays
unset.  The concrete scenario: fallback `"192.168.1.130"` yields the
endpoint `(192.168.1.130, 8081)`. -/
theorem locate_fallback_c4 (env : MdnsEnv) (fallbackIP : String)
    (st : ServerState) (hb : env.beginOk = true) (hr : env.results = []) :
    (0 < fallbackIP.length →
      speedie_discoverMCPServer env fallbackIP st =
        ({ ip := fallbackIP, port := 8081 }, true)) ∧
    (fallbackIP.length = 0 →
      speedie_discoverMCPServer env fallbackIP st = (st, false)) ∧
    (fallbackIP.length = 0 → st.ip = "" →
      ((speedie_discoverMCPServer env fallbackIP st).1).ip = "") ∧
    (fallbackIP = "192.168.1.130" →
      speedie_discoverMCPServer env fallbackIP st =
        ({ ip := "192.168.1.130", port := 8081 }, true)) := by
  refine ⟨?_, ?_, ?_, ?_⟩
  · intro h
    simp [speedie_discoverMCPServer, hb, hr, h]
  · intro h
    simp [speedie_discoverMCPServer, hb, hr, h]
  · intro h hunset
    simp [speedie_discoverMCPServer, hb, hr, h, hunset]
  · intro h
    subst h
    simp [speedie_discoverMCPServer, hb, hr]
    decide

/-- Witness for C4: the concrete fallback scenario of the spec. -/
theorem locate_fallback_c4_witness :
    speedie_discoverMCPServer { beginOk := true, results := [] }
        "192.168.1.130" { ip := "", port := 0 } =
      ({ ip := "192.168.1.130", port := 8081 }, true) :=
  (locate_fallback_c4 { beginOk := true, results := [] } "192.168.1.130"
    { ip := "", port := 0 } rfl rfl).2.2.2 rfl

/-- C10: when discovery fails — the mDNS responder cannot be set up, or
resolution returns zero results with no fallback configured — both
speedie_bot's and bot_wifi_client's `discoverMCPServer` return `false`
and leave the held endpoint (server IP and port) exactly as it was. -/
theorem discovery_failure_preserves_endpoint_c10 (env : MdnsEnv)
    (fallbackIP : String) (st : ServerState)
    (h : env.beginOk = false ∨ (env.results = [] ∧ fallbackIP.length = 0)) :
    speedie_discoverMCPServer env fallbackIP st = (st, false) ∧
    botWifi_discoverMCPServer env fallbackIP st = (st, false) := by
  rcases h with hb | ⟨hr, hf⟩
  · constructor <;>
      simp [speedie_discoverMCPServer, botWifi_discoverMCPServer, hb]
  · constructor <;>
      simp [speedie_discoverMCPServer, botWifi_discoverMCPServer, hr, hf]

/-- Witness for C10: a failed discovery leaves a concrete previously held
endpoint unchanged. -/
theorem discovery_failure_preserves_endpoint_c10_witness :
    speedie_discoverMCPServer { beginOk := false, results := [] } ""
        { ip := "192.168.1.50", port := 9000 } =
      ({ ip := "192.168.1.50", port := 9000 }, false) ∧
    botWifi_discoverMCPServer { beginOk := false, results := [] } ""
        { ip := "192.168.1.50", port := 9000 } =
      ({ ip := "192.168.1.50", port := 9000 }, false) :=
  discovery_failure_preserves_endpoint_c10 { beginOk := false, results := [] }
    "" { ip := "192.168.1.50", port := 9000 } (Or.inl rfl)

/-- C5 counterexample: the claim also names `sendStatusToMCP` of
`generic_bot_template/src/main.cpp` (lines 407-410), but that variant,
called with WiFi up and the endpoint unset, returns without invoking
discovery at all (and without sending), refuting "when the server endpoint
is unset the report operation first invokes discovery" for that source. -/
theorem report_discovery_c5_counterexample :
    (generic_sendStatusToMCP true { ip := "", port := 0 }).discoveryInvoked
        = false ∧
    (generic_sendStatusToMCP true { ip := "", port := 0 }).sentStatus
        = false := by
  constructor <;> rfl

/-- C5 (amended): when the endpoint is unset, speedie_bot's
`sendStatusToMCP` first invokes `discoverMCPServer` and sends no status
request this cycle, returning without error; generic_bot_template's
`sendStatusToMCP` likewise sends nothing and raises no error, but returns
without invoking discovery. -/
theorem report_unset_endpoint_c5 (wifiConnected : Bool) (env : MdnsEnv)
    (fallbackIP : String) (st : ServerState) (h : st.ip = "") :
    (speedie_sendStatusToMCP wifiConnected env fallbackIP st).discoveryInvoked
        = true ∧
    (speedie_sendStatusToMCP wifiConnected env fallbackIP st).sentStatus
        = false ∧
    (generic_sendStatusToMCP wifiConnected st).discoveryInvoked = false ∧
    (generic_sendStatusToMCP wifiConnected st).sentStatus = false := by
  refine ⟨?_, ?_, ?_, ?_⟩ <;>
    simp [speedie_sendStatusToMCP, generic_sendStatusToMCP, h]

/-- Witness for C5 at a concrete unset endpoint. -/
theorem report_unset_endpoint_c5_witness :
    (speedie_sendStatusToMCP true { beginOk := false, results := [] } ""
        { ip := "", port := 0 }).discoveryInvoked = true ∧
    (speedie_sendStatusToMCP true { beginOk := false, results := [] } ""
        { ip := "", port := 0 }).sentStatus = false ∧
    (generic_sendStatusToMCP true { ip := "", port := 0 }).discoveryInvoked
        = false ∧
    (generic_sendStatusToMCP true { ip := "", port := 0 }).sentStatus
        = false :=
  report_unset_endpoint_c5 true { beginOk := false, results := [] } ""
    { ip := "", port := 0 } rfl

/-- C6: when speedie_bot's `sendESPNowMessage` is asked to send to an
address absent from the peer registry, it first invokes `addESPNowPeer`
for that address, and if the address is still not registered afterwards
(registration failed) it returns without handing any frame to
`esp_now_send`. -/
theorem send_registers_unknown_peer_c6 (a1 a2 : Bool) (registry : List Mac)
    (peer : Mac) (botID msgType payload : List Nat) (ts : Nat)
    (h : esp_now_is_peer_exist registry peer = false) :
    (speedie_sendESPNowMessage a1 a2 registry peer botID msgType payload
      ts).registrationInvoked = true ∧
    (esp_now_is_peer_exist (speedie_addESPNowPeer a1 a2 registry peer) peer
        = false →
      (speedie_sendESPNowMessage a1 a2 registry peer botID msgType payload
        ts).sentFrame = none) := by
  constructor
  · simp only [speedie_sendESPNowMessage, h, Bool.false_eq_true, if_false]
    split <;> rfl
  · intro h2
    simp [speedie_sendESPNowMessage, h, h2]

/-- Witness for C6: with a radio that rejects both registration attempts,
a send to a concrete unknown peer invokes registration and transmits no
frame. -/
theorem send_registers_unknown_peer_c6_witness :
    (speedie_sendESPNowMessage false false [] [1, 2, 3, 4, 5, 6]
      [66] [104] [120] 0).registrationInvoked = true ∧
    (speedie_sendESPNowMessage false false [] [1, 2, 3, 4, 5, 6]
      [66] [104] [120] 0).sentFrame = none := by
  have h := send_registers_unknown_peer_c6 false false [] [1, 2, 3, 4, 5, 6]
    [66] [104] [120] 0 (by decide)
  exact ⟨h.1, h.2 (by decide)⟩

/-- C7: `onESPNowReceive` dispatches by `message_type`: a `heartbeat`
frame triggers exactly one `heartbeat_ack` response back to the sender, a
`status` frame exactly one `status_ack`, and any other type — `_ack`
acknowledgments and unknown types alike — produces no response and no
error (unknown types are merely logged). -/
theorem receive_dispatch_c7 (mac : Mac) (msgType : String)
    (h1 : msgType ≠ "heartbeat") (h2 : msgType ≠ "status") :
    onESPNowReceive_dispatch mac "heartbeat" = [(mac, "heartbeat_ack")] ∧
    onESPNowReceive_dispatch mac "status" = [(mac, "status_ack")] ∧
    onESPNowReceive_dispatch mac msgType = [] := by
  refine ⟨rfl, rfl, ?_⟩
  simp only [onESPNowReceive_dispatch, if_neg h1, if_neg h2, ite_self]

/-- Witness for C7 at a concrete sender address and unknown type. -/
theorem receive_dispatch_c7_witness :
    onESPNowReceive_dispatch [1, 2, 3, 4, 5, 6] "heartbeat" =
      [([1, 2, 3, 4, 5, 6], "heartbeat_ack")] ∧
    onESPNowReceive_dispatch [1, 2, 3, 4, 5, 6] "mystery" = [] := by
  have h := receive_dispatch_c7 [1, 2, 3, 4, 5, 6] "mystery"
    (by decide) (by decide)
  exact ⟨h.1, h.2.2⟩

end Mcp
